import Mathlib

/-!
Shallow embedding of the MobiScale Apple App Attest verification core
(`appattest-rs`): certificate-chain validation, nonce extraction,
attestation verification and assertion verification, together with
theorems settling the specification claims.

Conventions of the embedding:
* byte strings are `List Nat` (each entry a byte value);
* the external parsers/crypto primitives (base64, X.509 DER parsing,
  BER parsing, SHA-256, ECDSA) are passed as explicit function
  parameters, since they live in external crates;
* Rust `Result` becomes `Except AppAttestError`;
* a Rust panic (out-of-range slice index) is modelled by an outer
  `Option` being `none`.
-/

deriving instance DecidableEq for Except

namespace MobiScale

/-- Byte strings of the Rust code (`Vec<u8>` / `&[u8]`). -/
abbrev Bytes := List Nat

/-- Error type of the crate (`error.rs` is not part of the sources here;
the variants are reconstructed from their uses in `attestation.rs` and
`assertion.rs` and from the spec's error taxonomy). `message` carries the
literal string built at the error site. -/
inductive AppAttestError where
  | message (s : String)
  | expectedASN1Node
  | failedToExtractValueFromASN1Node
  | invalidPublicKey
  | invalidNonce
  | invalidAAGUID
  | invalidSignature
  | invalidCounter
  | appIdMismatch
  | keyIdMismatch
  | truncated
deriving DecidableEq

/-- Parsed X.509 certificate: the fields of `x509_parser::X509Certificate`
that `attestation.rs` actually reads. Distinguished names are kept as
opaque byte encodings; validity bounds are Unix timestamps (seconds), as
compared by `ASN1Time`. `spki` is `subject_pki.subject_public_key.data`,
`tbs` the raw TBSCertificate, `sigVal` the signature value, and
`extensions` the list of (OID arcs, extension value) pairs. -/
structure X509 where
  issuerDN : Bytes
  subjectDN : Bytes
  notBefore : Int
  notAfter : Int
  spki : Bytes
  tbs : Bytes
  sigVal : Bytes
  extensions : List (List Nat × Bytes)
deriving DecidableEq

/-- `x509_parser` `Validity::is_valid_at`: inclusive on both bounds. -/
def is_valid_at (c : X509) (t : Int) : Bool :=
  decide (c.notBefore ≤ t) && decide (t ≤ c.notAfter)

/-- Smallest Unix timestamp representable by the `time` crate's
`OffsetDateTime` (year -9999), the range `ASN1Time::from_timestamp`
accepts. -/
def timestampMin : Int := -377705116800

/-- Largest Unix timestamp representable by the `time` crate's
`OffsetDateTime` (9999-12-31T23:59:59Z). -/
def timestampMax : Int := 253402300799

/-- `ASN1Time::from_timestamp(time)` succeeds exactly on representable
timestamps. -/
def from_timestamp_ok (t : Int) : Bool :=
  decide (timestampMin ≤ t) && decide (t ≤ timestampMax)

/-- Step 3 of `verify_certificates`: parse every DER entry of the chain;
the first parse failure aborts with the literal error message. -/
def parseChain (parse : Bytes → Option X509) :
    List Bytes → Except AppAttestError (List X509)
  | [] => .ok []
  | der :: rest =>
    match parse der with
    | none => .error (.message "failed to parse certificate")
    | some cert =>
      match parseChain parse rest with
      | .error e => .error e
      | .ok certs => .ok (cert :: certs)

/-- Step 5 of `verify_certificates`: walk the parsed chain leaf-first.
For each certificate the validity window is checked first, then the
issuer DN against the subject DN of the next certificate (or of the
pinned root for the last entry). The cryptographic signature check of
the source is commented out (`TODO - fix certificate verification`), so
this walk performs no signature verification — faithful to the code. -/
def walkChain (root : X509) (t : Int) : List X509 → Except AppAttestError Unit
  | [] => .ok ()
  | cert :: rest =>
    if !is_valid_at cert t then
      .error (.message "certificate expired / not yet valid")
    else
      let issuer := rest.headD root
      if cert.issuerDN ≠ issuer.subjectDN then
        .error (.message "issuer DN mismatch")
      else
        walkChain root t rest

/-- `Attestation::verify_certificates(cert_chain, root_cert, time)`. -/
def verify_certificates (parse : Bytes → Option X509) (cert_chain : List Bytes)
    (root_cert : X509) (time : Int) : Except AppAttestError Unit :=
  if cert_chain.isEmpty then
    .error (.message "certificate list is empty")
  else
    match parseChain parse cert_chain with
    | .error e => .error e
    | .ok parsed =>
      if !from_timestamp_ok time then
        .error (.message "invalid current time")
      else
        walkChain root_cert time parsed

/-- Modelled from the spec: §4.3's mandatory third check, the
cryptographic signature verification of each chain member against its
issuer's public key, which the source's `verify_certificates` leaves
commented out. `sigVerify cert issuer` stands for
`ECDSA_P256_SHA256_ASN1.verify` of `cert.tbs`/`cert.sigVal` under
`issuer.spki`. The walk otherwise mirrors `walkChain`. -/
def walkChainSpec (sigVerify : X509 → X509 → Bool) (root : X509) (t : Int) :
    List X509 → Except AppAttestError Unit
  | [] => .ok ()
  | cert :: rest =>
    if !is_valid_at cert t then
      .error (.message "certificate expired / not yet valid")
    else
      let issuer := rest.headD root
      if cert.issuerDN ≠ issuer.subjectDN then
        .error (.message "issuer DN mismatch")
      else if !sigVerify cert issuer then
        .error .invalidSignature
      else
        walkChainSpec sigVerify root t rest

/-- Modelled from the spec: `verify_chain` of §4.3 with the mandatory
signature check included (the source omits it). -/
def verify_chain_spec (parse : Bytes → Option X509)
    (sigVerify : X509 → X509 → Bool) (cert_chain : List Bytes)
    (root_cert : X509) (time : Int) : Except AppAttestError Unit :=
  if cert_chain.isEmpty then
    .error (.message "certificate list is empty")
  else
    match parseChain parse cert_chain with
    | .error e => .error e
    | .ok parsed =>
      if !from_timestamp_ok time then
        .error (.message "invalid current time")
      else
        walkChainSpec sigVerify root_cert time parsed

/-- Modelled from the spec: `authenticator.rs` (the `AuthenticatorData`
struct) is not among the sources; its fields follow §3 of the spec.
`bytes` keeps the raw buffer (`auth_data.bytes` in the callers);
`counter` is the big-endian u32 at offsets 33..37. The attested
credential fields are present only when flag bit 6 is set. -/
structure AuthenticatorData where
  bytes : Bytes
  rpIdHash : Bytes
  flags : Nat
  counter : Nat
  aaguid : Option Bytes
  credentialId : Option Bytes
  credentialPublicKey : Option Bytes
deriving DecidableEq

/-- Modelled from the spec: `AuthenticatorData::new(raw)` of the missing
`authenticator.rs`, per §4.2's fixed layout —
`rp_id_hash[0:32] | flags[32] | counter[33:37]`, then (only when bit 6
of `flags` is set) `aaguid[37:53] | credential_id_length[53:55] |
credential_id[55:55+len] | credential_public_key (rest)`. Fewer than 37
bytes, or an attested-credential section exceeding the buffer, is a
`Truncated` parse failure. -/
def AuthenticatorData.new (raw : Bytes) : Except AppAttestError AuthenticatorData :=
  if raw.length < 37 then .error .truncated
  else if (raw.getD 32 0).testBit 6 then
    if raw.length < 55 then .error .truncated
    else if raw.length < 55 + (raw.getD 53 0 * 256 + raw.getD 54 0) then
      .error .truncated
    else
      .ok ⟨raw, raw.take 32, raw.getD 32 0,
        raw.getD 33 0 * 2 ^ 24 + raw.getD 34 0 * 2 ^ 16 +
          raw.getD 35 0 * 2 ^ 8 + raw.getD 36 0,
        some ((raw.drop 37).take 16),
        some ((raw.drop 55).take (raw.getD 53 0 * 256 + raw.getD 54 0)),
        some (raw.drop (55 + (raw.getD 53 0 * 256 + raw.getD 54 0)))⟩
  else
    .ok ⟨raw, raw.take 32, raw.getD 32 0,
      raw.getD 33 0 * 2 ^ 24 + raw.getD 34 0 * 2 ^ 16 +
        raw.getD 35 0 * 2 ^ 8 + raw.getD 36 0,
      none, none, none⟩

/-- Modelled from the spec: §4.2's `verify_app_id` — SHA-256 over the
UTF-8 bytes of the app id (passed here already as bytes) must equal
`rp_id_hash`. -/
def AuthenticatorData.verify_app_id (sha256 : Bytes → Bytes)
    (ad : AuthenticatorData) (appId : Bytes) : Except AppAttestError Unit :=
  if sha256 appId = ad.rpIdHash then .ok () else .error .appIdMismatch

/-- Modelled from the spec: §4.2's `verify_counter` (attestation path) —
requires `counter == 0`, nonzero is `InvalidCounter`. -/
def AuthenticatorData.verify_counter (ad : AuthenticatorData) :
    Except AppAttestError Unit :=
  if ad.counter = 0 then .ok () else .error .invalidCounter

/-- ASCII bytes of `"appattest"` padded with 7 null bytes: the
production AAGUID constant. -/
def aaguidProd : Bytes :=
  [97, 112, 112, 97, 116, 116, 101, 115, 116, 0, 0, 0, 0, 0, 0, 0]

/-- ASCII bytes of `"appattestdevelop"`, the development AAGUID constant
(`"appattestdevelopment"` cut to 16 bytes). -/
def aaguidDev : Bytes :=
  [97, 112, 112, 97, 116, 116, 101, 115, 116, 100, 101, 118, 101, 108, 111, 112]

/-- Modelled from the spec: §4.2's `is_valid_aaguid(dev_env)` — the
16-byte AAGUID equals the development constant when `dev_env`, the
production constant otherwise. An absent AAGUID matches neither. -/
def AuthenticatorData.is_valid_aaguid (ad : AuthenticatorData)
    (devEnv : Bool) : Bool :=
  ad.aaguid = some (if devEnv then aaguidDev else aaguidProd)

/-- Modelled from the spec: §4.2's `verify_key_id(expected)` —
byte-equality between `credential_id` and the expected id. -/
def AuthenticatorData.verify_key_id (ad : AuthenticatorData)
    (expected : Bytes) : Except AppAttestError Unit :=
  if ad.credentialId = some expected then .ok () else .error .keyIdMismatch

/-- One element of the BER sequence inspected by
`extract_nonce_from_cert`: the code only distinguishes
`BerObjectContent::Unknown` (carrying its raw content bytes) from every
other content kind. -/
inductive BerElem where
  | unknown (data : Bytes)
  | other
deriving DecidableEq

/-- Result of `parse_ber` on the extension value, as far as
`extract_nonce_from_cert` inspects it: a sequence of elements, or some
non-sequence object. -/
inductive BerTop where
  | sequence (elems : List BerElem)
  | nonSequence
deriving DecidableEq

/-- The arcs of the credCert OID `1.2.840.113635.100.8.2`. -/
def credCertOid : List Nat := [1, 2, 840, 113635, 100, 8, 2]

/-- The `for obj in seq { match Unknown → return ... }` loop: the first
`Unknown` element's data, if any. -/
def firstUnknown : List BerElem → Option Bytes
  | [] => none
  | .unknown d :: _ => some d
  | .other :: rest => firstUnknown rest

/-- `Attestation::extract_nonce_from_cert(cert_der)`. The outer `Option`
models a Rust panic: the source slices `unknown_obj.data[2..]`, which
panics when the data is shorter than 2 bytes; every other path is total
and returns `some`. -/
def extract_nonce_from_cert (parse : Bytes → Option X509)
    (parseBer : Bytes → Option BerTop) (cert_der : Bytes) :
    Option (Except AppAttestError Bytes) :=
  match parse cert_der with
  | none => some (.error (.message "Failed to parse certificate"))
  | some cert =>
    match cert.extensions.find? (fun e => e.1 = credCertOid) with
    | none =>
      some (.error (.message "Certificate did not contain credCert extension"))
    | some ext =>
      match parseBer ext.2 with
      | none => some (.error .expectedASN1Node)
      | some .nonSequence => some (.error .expectedASN1Node)
      | some (.sequence elems) =>
        match firstUnknown elems with
        | none => some (.error .failedToExtractValueFromASN1Node)
        | some d => if d.length < 2 then none else some (.ok (d.drop 2))

/-- `Attestation::nonce_hash(auth_data, client_data_hash)`: SHA-256 of
the concatenation. -/
def nonce_hash (sha256 : Bytes → Bytes) (auth_data client_data_hash : Bytes) :
    Bytes :=
  sha256 (auth_data ++ client_data_hash)

/-- `Attestation::verify_public_key_hash(cert, key_identifier)`: the raw
subject-public-key bytes together with whether their SHA-256 equals the
key identifier. -/
def verify_public_key_hash (sha256 : Bytes → Bytes) (cert : X509)
    (key_identifier : Bytes) : Bytes × Bool :=
  (cert.spki, sha256 cert.spki = key_identifier)

/-- The decoded attestation envelope: `attStmt.x5c` (leaf first),
`attStmt.receipt`, and `authData`. -/
structure Attestation where
  certificates : List Bytes
  receipt : Bytes
  authData : Bytes
deriving DecidableEq

/-- `Attestation::verify(base64_challenge, app_id, key_id, time,
dev_env)`. Parameters `b64`, `parse`, `parseBer`, `sha256` model the
external base64 decoder, the X.509 DER parser, the BER parser and
SHA-256; `appleRoot` is the parsed pinned root certificate
(`Apple_App_Attestation_Root_CA.der`, a build-time binary asset). The
app id is passed as its UTF-8 bytes. The outer `Option` is `none` when
the run would panic (inside `extract_nonce_from_cert`); `certificates[0]`
indexing is modelled by `head?` (unreachable `none` after a successful
chain walk). Note the source checks the public-key hash (its step 4)
before comparing the extracted nonce. -/
def Attestation.verify (b64 : String → Option Bytes)
    (parse : Bytes → Option X509) (parseBer : Bytes → Option BerTop)
    (sha256 : Bytes → Bytes) (appleRoot : X509) (att : Attestation)
    (base64_challenge : String) (app_id : Bytes) (key_id : String)
    (time : Int) (dev_env : Option Bool) :
    Option (Except AppAttestError (Bytes × Bytes)) :=
  match b64 base64_challenge with
  | none => some (.error (.message "Failed to decode Base64 challenge"))
  | some challenge =>
    match verify_certificates parse att.certificates appleRoot time with
    | .error e => some (.error e)
    | .ok () =>
      match AuthenticatorData.new att.authData with
      | .error e => some (.error e)
      | .ok auth_data =>
        let client_data_hash := sha256 challenge
        let nonce := nonce_hash sha256 auth_data.bytes client_data_hash
        match att.certificates.head? with
        | none => none
        | some leafDer =>
          match parse leafDer with
          | none => some (.error (.message "invalid Cred certificate DER"))
          | some cred_cert =>
            match b64 key_id with
            | none => some (.error (.message "invalid base64 key id"))
            | some key_id_decoded_bytes =>
              let public_key_bytes :=
                verify_public_key_hash sha256 cred_cert key_id_decoded_bytes
              if !public_key_bytes.2 then
                some (.error .invalidPublicKey)
              else
                match extract_nonce_from_cert parse parseBer leafDer with
                | none => none
                | some (.error e) => some (.error e)
                | some (.ok extracted_nonce) =>
                  if extracted_nonce ≠ nonce then
                    some (.error .invalidNonce)
                  else
                    match auth_data.verify_app_id sha256 app_id with
                    | .error e => some (.error e)
                    | .ok () =>
                      match auth_data.verify_counter with
                      | .error e => some (.error e)
                      | .ok () =>
                        if !auth_data.is_valid_aaguid (dev_env.getD false) then
                          some (.error .invalidAAGUID)
                        else
                          match auth_data.verify_key_id key_id_decoded_bytes with
                          | .error e => some (.error e)
                          | .ok () => some (.ok (public_key_bytes.1, att.receipt))

/-- An EC public key as parsed by
`VerifyingKey::from_public_key_pem`: the affine coordinates of the
point, each a 32-byte big-endian field element in the `p256` crate. -/
structure PubKey where
  x : Bytes
  y : Bytes
deriving DecidableEq

/-- An ECDSA signature as parsed by `ecdsa::Signature::from_der`:
`r` and `s`, each a 32-byte big-endian scalar in the `p256` crate. -/
structure EcdsaSig where
  r : Bytes
  s : Bytes
deriving DecidableEq

/-- The decoded assertion envelope: `authenticatorData` and
`signature`. -/
structure Assertion where
  raw_authenticator_data : Bytes
  signature : Bytes
deriving DecidableEq

/-- `Assertion::verify(base64_client_data, app_id, public_key,
previous_counter, verify_signature)`. Parameters `b64`, `sha256`,
`pemKey`, `derSig`, `ecdsaVerify` model the external primitives
(`ecdsaVerify key msg sig` is `VerifyingKey::verify`). The app id is
passed as its UTF-8 bytes; the result tuple is
`(signature_r, signature_s, public_key_x, public_key_y)`. -/
def Assertion.verify (b64 : String → Option Bytes) (sha256 : Bytes → Bytes)
    (pemKey : String → Option PubKey) (derSig : Bytes → Option EcdsaSig)
    (ecdsaVerify : PubKey → Bytes → EcdsaSig → Bool) (a : Assertion)
    (base64_client_data : String) (app_id : Bytes) (public_key : String)
    (previous_counter : Nat) (verify_signature : Option Bool) :
    Except AppAttestError (Bytes × Bytes × Bytes × Bytes) :=
  match b64 base64_client_data with
  | none => .error (.message "failed to decode client data")
  | some client_data_byte =>
    match AuthenticatorData.new a.raw_authenticator_data with
    | .error e => .error e
    | .ok auth_data =>
      let client_data_hash := sha256 client_data_byte
      match pemKey public_key with
      | none => .error (.message "failed to parse the public key")
      | some verifying_key =>
        let nonce := sha256 (auth_data.bytes ++ client_data_hash)
        match derSig a.signature with
        | none => .error (.message "invalid signature format")
        | some signature =>
          if verify_signature.getD true &&
              !ecdsaVerify verifying_key nonce signature then
            .error .invalidSignature
          else
            match auth_data.verify_app_id sha256 app_id with
            | .error e => .error e
            | .ok () =>
              if auth_data.counter ≤ previous_counter then
                .error .invalidCounter
              else
                .ok (signature.r, signature.s, verifying_key.x, verifying_key.y)

/-- 32 zero bytes. -/
def zeros32 : Bytes := List.replicate 32 0

/-- A degenerate stand-in for SHA-256 used to drive control-flow
witnesses: every input hashes to 32 zero bytes. -/
def shaZ : Bytes → Bytes := fun _ => zeros32

/-- A concrete trusted root: subject DN `[1]`, validity window
`[0, 10]`. -/
def rootC : X509 := ⟨[0], [1], 0, 10, [7], [], [], []⟩

/-- A concrete leaf certificate issued by `rootC` (issuer DN `[1]`),
validity window `[0, 100]`, raw public-key bytes `[5]`, and a credCert
extension with value `[161, 0]`. -/
def leafC : X509 := ⟨[1], [2], 0, 100, [5], [], [], [(credCertOid, [161, 0])]⟩

/-- A concrete DER parser: the byte string `[10]` parses to `leafC`. -/
def parse1 : Bytes → Option X509 := fun d => if d = [10] then some leafC else none

/-- A concrete BER parser: the extension value `[161, 0]` parses to a
sequence holding one `Unknown` object with empty content. -/
def berShort : Bytes → Option BerTop :=
  fun v => if v = [161, 0] then some (.sequence [.unknown []]) else none

/-- A leaf certificate without any extensions. -/
def certNoExt : X509 := ⟨[1], [2], 0, 100, [5], [], [], []⟩

/-- A concrete DER parser: the byte string `[20]` parses to
`certNoExt`. -/
def parse2 : Bytes → Option X509 :=
  fun d => if d = [20] then some certNoExt else none

/-- A 37-byte authenticator-data buffer: 32-byte rp-id hash of zeros,
flags 0, counter 0. -/
def authRaw0 : Bytes := List.replicate 37 0

/-- The parse of `authRaw0`. -/
def adC3 : AuthenticatorData := ⟨authRaw0, zeros32, 0, 0, none, none, none⟩

/-- A concrete attestation envelope over `authRaw0` with chain
`[[10]]`. -/
def attC3 : Attestation := ⟨[[10]], [3], authRaw0⟩

/-- A concrete BER parser under which the leaf's extension value holds
one `Unknown` object with content `[9, 9, 5]`, so the extracted nonce is
`[5]`. -/
def berC3 : Bytes → Option BerTop :=
  fun v => if v = [161, 0] then some (.sequence [.unknown [9, 9, 5]]) else none

/-- A concrete base64 decoder: `"chal"` decodes to `[1]` and `"kid"` to
`[2]`. -/
def b64C3 : String → Option Bytes :=
  fun s => if s = "chal" then some [1] else if s = "kid" then some [2] else none

/-- A concrete base64 decoder for the C5 witness: `"chal"` decodes to
`[1]` and `"kidz"` to the 32 zero bytes (the hash of the leaf public
key under `shaZ`). -/
def b64C5 : String → Option Bytes :=
  fun s =>
    if s = "chal" then some [1] else if s = "kidz" then some zeros32 else none

/-- The 37-byte authenticator-data buffer with counter 1 (flags 0). -/
def authRaw1 : Bytes := List.replicate 32 0 ++ [0, 0, 0, 0, 1]

/-- The parse of `authRaw1`. -/
def adC8 : AuthenticatorData := ⟨authRaw1, zeros32, 0, 1, none, none, none⟩

/-- A concrete attestation envelope over `authRaw1`. -/
def attC8 : Attestation := ⟨[[10]], [3], authRaw1⟩

/-- A concrete BER parser under which the extracted nonce equals the
32 zero bytes (the computed nonce under `shaZ`). -/
def berC8 : Bytes → Option BerTop :=
  fun v =>
    if v = [161, 0] then some (.sequence [.unknown ([9, 9] ++ zeros32)])
    else none

/-- A 37-byte authenticator-data buffer with counter 5 (flags 0). -/
def authRawC2 : Bytes := List.replicate 32 0 ++ [0, 0, 0, 0, 5]

/-- The parse of `authRawC2`. -/
def adC2 : AuthenticatorData := ⟨authRawC2, zeros32, 0, 5, none, none, none⟩

/-- A concrete assertion envelope over `authRawC2` with signature bytes
`[1]`. -/
def asrtC2 : Assertion := ⟨authRawC2, [1]⟩

/-- A concrete base64 decoder for the assertion fixtures: `"cd"`
decodes to `[1]`. -/
def b64A : String → Option Bytes := fun s => if s = "cd" then some [1] else none

/-- A concrete P-256 public key whose coordinates are 32 zero bytes. -/
def vkC : PubKey := ⟨zeros32, zeros32⟩

/-- A concrete ECDSA signature whose scalars are 32 zero bytes. -/
def sigC : EcdsaSig := ⟨zeros32, zeros32⟩

/-- A concrete PEM key parser: `"pk"` parses to `vkC`. -/
def pemK : String → Option PubKey := fun s => if s = "pk" then some vkC else none

/-- A concrete DER signature parser: `[1]` parses to `sigC`. -/
def derS : Bytes → Option EcdsaSig := fun b => if b = [1] then some sigC else none

/-- A degenerate ECDSA verifier that accepts everything. -/
def ecdsaT : PubKey → Bytes → EcdsaSig → Bool := fun _ _ _ => true

/-- Every chain member is inside its validity window at `t`
(recursive form). -/
def AllValid (t : Int) : List X509 → Prop
  | [] => True
  | c :: rest => is_valid_at c t = true ∧ AllValid t rest

/-- Every chain member's issuer DN matches its issuer's subject DN,
the issuer being the next member or the root (recursive form). -/
def AllLinked (root : X509) : List X509 → Prop
  | [] => True
  | c :: rest => c.issuerDN = (rest.headD root).subjectDN ∧ AllLinked root rest

/-! ### Theorems -/

/-- Claim C1: the code is wrong here. `verify_certificates` accepts a
chain without ever invoking cryptographic signature verification (the
call is commented out in the source), so a chain whose only flaw is an
invalid signature — modelled by a signature-verification predicate that
rejects everything — is accepted, while the chain walk the spec
mandates (§4.3, including the signature check) rejects the same chain
with a signature error. -/
theorem C1_verify_certificates_skips_signature_check :
    verify_certificates parse1 [[10]] rootC 5 = .ok () ∧
    verify_chain_spec parse1 (fun _ _ => false) [[10]] rootC 5 =
      .error .invalidSignature := by
  constructor <;> rfl

/-- Claim C6: the code is wrong here. `extract_nonce_from_cert` slices
`unknown_obj.data[2..]` without a bounds check, so a certificate whose
credCert extension parses to a sequence holding an `Unknown` object with
content shorter than 2 bytes makes it panic (modelled by `none`) —
contradicting the claim that extraction is total and never panics. The
second conjunct records the part of the claim that does hold: a
certificate lacking the credCert OID yields the extension-not-found
error rather than a panic. -/
theorem C6_extract_nonce_panics_on_short_unknown :
    extract_nonce_from_cert parse1 berShort [10] = none ∧
    extract_nonce_from_cert parse2 berShort [20] =
      some (.error (.message "Certificate did not contain credCert extension")) := by
  constructor <;> rfl

/-- Claim C10: `verify_certificates` never tests the pinned root's own
validity window: at time 50 the root `rootC` (valid through 10) is
outside its window, the sole chain member `leafC` (valid through 100) is
inside its window, and chain validation succeeds. -/
theorem C10_root_validity_window_unchecked :
    is_valid_at rootC 50 = false ∧
    is_valid_at leafC 50 = true ∧
    verify_certificates parse1 [[10]] rootC 50 = .ok () := by
  refine ⟨rfl, rfl, rfl⟩

/-- Claim C3 counterexample: a concrete attestation input on which both
the extracted nonce (`[5]`) differs from the computed nonce and the
SHA-256 of the leaf public key differs from the decoded key id, yet
`Attestation.verify` returns `InvalidPublicKey` — not `InvalidNonce` as
the claim states — because the source decides the public-key-hash check
first. -/
theorem C3_counterexample_invalid_public_key_wins :
    extract_nonce_from_cert parse1 berC3 [10] = some (.ok [5]) ∧
    [5] ≠ nonce_hash shaZ authRaw0 (shaZ [1]) ∧
    shaZ leafC.spki ≠ [2] ∧
    Attestation.verify b64C3 parse1 berC3 shaZ rootC attC3 "chal" [0] "kid"
      5 none = some (.error .invalidPublicKey) := by
  refine ⟨rfl, by decide, by decide, rfl⟩

/-- Helper: whenever the run reaches the public-key-hash check and the
SHA-256 of the leaf public key differs from the decoded key id,
`Attestation.verify` fails with `InvalidPublicKey` (the check precedes
the nonce comparison in the source). -/
theorem verify_invalid_public_key_of_hash_ne
    (b64 : String → Option Bytes) (parse : Bytes → Option X509)
    (parseBer : Bytes → Option BerTop) (sha256 : Bytes → Bytes)
    (appleRoot : X509) (att : Attestation) (challenge key_id : String)
    (app_id ch : Bytes) (time : Int) (dev : Option Bool)
    (ad : AuthenticatorData) (leaf : Bytes) (cert : X509) (kid : Bytes)
    (h1 : b64 challenge = some ch)
    (h2 : verify_certificates parse att.certificates appleRoot time = .ok ())
    (h3 : AuthenticatorData.new att.authData = .ok ad)
    (h4 : att.certificates.head? = some leaf)
    (h5 : parse leaf = some cert)
    (h6 : b64 key_id = some kid)
    (h7 : sha256 cert.spki ≠ kid) :
    Attestation.verify b64 parse parseBer sha256 appleRoot att challenge
      app_id key_id time dev = some (.error .invalidPublicKey) := by
  simp only [Attestation.verify, h1, h2, h3, h4, h5, h6,
    verify_public_key_hash]
  simp [h7]

/-- Claim C3 (amended): `Attestation.verify` decides the
public-key-hash check before the embedded-nonce check, so for every
attestation input reaching these steps whose leaf public-key SHA-256
differs from the decoded key id — in particular when the extracted
nonce also differs from the computed nonce — verify returns
`InvalidPublicKey`, not `InvalidNonce`. -/
theorem C3_amended_public_key_check_decided_first
    (b64 : String → Option Bytes) (parse : Bytes → Option X509)
    (parseBer : Bytes → Option BerTop) (sha256 : Bytes → Bytes)
    (appleRoot : X509) (att : Attestation) (challenge key_id : String)
    (app_id ch : Bytes) (time : Int) (dev : Option Bool)
    (ad : AuthenticatorData) (leaf : Bytes) (cert : X509) (kid : Bytes)
    (h1 : b64 challenge = some ch)
    (h2 : verify_certificates parse att.certificates appleRoot time = .ok ())
    (h3 : AuthenticatorData.new att.authData = .ok ad)
    (h4 : att.certificates.head? = some leaf)
    (h5 : parse leaf = some cert)
    (h6 : b64 key_id = some kid)
    (h7 : sha256 cert.spki ≠ kid) :
    Attestation.verify b64 parse parseBer sha256 appleRoot att challenge
      app_id key_id time dev = some (.error .invalidPublicKey) :=
  verify_invalid_public_key_of_hash_ne b64 parse parseBer sha256 appleRoot
    att challenge key_id app_id ch time dev ad leaf cert kid
    h1 h2 h3 h4 h5 h6 h7

/-- Claim C3 witness: the amended theorem applied at the concrete
counterexample input. -/
theorem C3_amended_witness :
    shaZ leafC.spki ≠ [2] ∧
    Attestation.verify b64C3 parse1 berC3 shaZ rootC attC3 "chal" [0] "kid"
      5 none = some (.error .invalidPublicKey) :=
  ⟨by decide,
    C3_amended_public_key_check_decided_first b64C3 parse1 berC3 shaZ rootC
      attC3 "chal" "kid" [0] [1] 5 none adC3 [10] leafC [2]
      rfl rfl rfl rfl rfl rfl (by decide)⟩

/-- A successful `AuthenticatorData.new` keeps the raw buffer in
`bytes`. -/
theorem adNew_bytes {raw : Bytes} {ad : AuthenticatorData}
    (h : AuthenticatorData.new raw = .ok ad) : ad.bytes = raw := by
  unfold AuthenticatorData.new at h
  repeat' split at h
  any_goals exact Except.noConfusion h
  all_goals (injection h with h2; subst h2; rfl)

/-- A successful `AuthenticatorData.new` reads the counter as the
big-endian u32 at offsets 33..37 of the raw buffer. -/
theorem adNew_counter {raw : Bytes} {ad : AuthenticatorData}
    (h : AuthenticatorData.new raw = .ok ad) :
    ad.counter =
      raw.getD 33 0 * 2 ^ 24 + raw.getD 34 0 * 2 ^ 16 +
        raw.getD 35 0 * 2 ^ 8 + raw.getD 36 0 := by
  unfold AuthenticatorData.new at h
  repeat' split at h
  any_goals exact Except.noConfusion h
  all_goals (injection h with h2; subst h2; rfl)

/-- Claim C5 counterexample: a concrete attestation input on which
chain validation and authenticator-data parsing succeed and the nonce
extracted from the leaf differs from the computed
`SHA256(auth_data || SHA256(challenge))`, yet verification does not
fail with `InvalidNonce`: the public-key-hash check fails first and the
result is `InvalidPublicKey`. -/
theorem C5_counterexample_nonce_mismatch_not_invalid_nonce :
    verify_certificates parse1 attC3.certificates rootC 6 = .ok () ∧
    AuthenticatorData.new attC3.authData = .ok adC3 ∧
    extract_nonce_from_cert parse1 berC3 [10] = some (.ok [5]) ∧
    [5] ≠ shaZ (attC3.authData ++ shaZ [1]) ∧
    Attestation.verify b64C3 parse1 berC3 shaZ rootC attC3 "chal" [0] "kid"
      6 none ≠ some (.error .invalidNonce) ∧
    Attestation.verify b64C3 parse1 berC3 shaZ rootC attC3 "chal" [0] "kid"
      6 none = some (.error .invalidPublicKey) := by
  refine ⟨rfl, rfl, rfl, by decide, by decide, rfl⟩

/-- Claim C5 (amended): after chain validation and authenticator-data
parsing succeed — and given additionally that the key id decodes, the
public-key-hash check passes, and nonce extraction from the leaf
succeeds — `Attestation.verify` fails with `InvalidNonce` exactly when
the extracted nonce is not byte-for-byte equal to
`SHA256(raw_auth_data || SHA256(challenge))`. -/
theorem C5_amended_invalid_nonce_iff_mismatch
    (b64 : String → Option Bytes) (parse : Bytes → Option X509)
    (parseBer : Bytes → Option BerTop) (sha256 : Bytes → Bytes)
    (appleRoot : X509) (att : Attestation) (challenge key_id : String)
    (app_id ch : Bytes) (time : Int) (dev : Option Bool)
    (ad : AuthenticatorData) (leaf : Bytes) (cert : X509) (kid ex : Bytes)
    (h1 : b64 challenge = some ch)
    (h2 : verify_certificates parse att.certificates appleRoot time = .ok ())
    (h3 : AuthenticatorData.new att.authData = .ok ad)
    (h4 : att.certificates.head? = some leaf)
    (h5 : parse leaf = some cert)
    (h6 : b64 key_id = some kid)
    (h7 : sha256 cert.spki = kid)
    (h8 : extract_nonce_from_cert parse parseBer leaf = some (.ok ex)) :
    Attestation.verify b64 parse parseBer sha256 appleRoot att challenge
        app_id key_id time dev = some (.error .invalidNonce) ↔
      ex ≠ sha256 (att.authData ++ sha256 ch) := by
  have hb : ad.bytes = att.authData := adNew_bytes h3
  constructor
  · intro hres
    by_contra hne
    simp [Attestation.verify, h1, h2, h3, h4, h5, h6,
      verify_public_key_hash, nonce_hash, hb, h7, h8, hne,
      AuthenticatorData.verify_app_id, AuthenticatorData.verify_counter,
      AuthenticatorData.verify_key_id] at hres
    repeat' split at hres
    all_goals simp_all [ite_eq_iff]
  · intro hne
    simp [Attestation.verify, h1, h2, h3, h4, h5, h6,
      verify_public_key_hash, nonce_hash, hb, h7, h8, hne]

/-- Claim C5 witness: the amended theorem applied at a concrete input
whose extracted nonce `[5]` differs from the computed all-zero nonce
while the public-key-hash check passes, so verification fails with
`InvalidNonce`. -/
theorem C5_amended_witness :
    shaZ leafC.spki = zeros32 ∧
    ([5] ≠ shaZ (attC3.authData ++ shaZ [1])) ∧
    (Attestation.verify b64C5 parse1 berC3 shaZ rootC attC3 "chal" [0]
        "kidz" 6 none = some (.error .invalidNonce) ↔
      [5] ≠ shaZ (attC3.authData ++ shaZ [1])) :=
  ⟨rfl, by decide,
    C5_amended_invalid_nonce_iff_mismatch b64C5 parse1 berC3 shaZ rootC
      attC3 "chal" "kidz" [0] [1] 6 none adC3 [10] leafC zeros32 [5]
      rfl rfl rfl rfl rfl rfl rfl rfl⟩

/-- Claim C7: once the run reaches the point where the leaf certificate
and the decoded key id are available, (a) a successful verification
returns exactly the leaf's raw subject-public-key bytes, whose SHA-256
equals the decoded key id, and (b) whenever that hash differs from the
decoded key id the verification fails with `InvalidPublicKey`. -/
theorem C7_public_key_hash_binding
    (b64 : String → Option Bytes) (parse : Bytes → Option X509)
    (parseBer : Bytes → Option BerTop) (sha256 : Bytes → Bytes)
    (appleRoot : X509) (att : Attestation) (challenge key_id : String)
    (app_id ch : Bytes) (time : Int) (dev : Option Bool)
    (ad : AuthenticatorData) (leaf : Bytes) (cert : X509) (kid : Bytes)
    (h1 : b64 challenge = some ch)
    (h2 : verify_certificates parse att.certificates appleRoot time = .ok ())
    (h3 : AuthenticatorData.new att.authData = .ok ad)
    (h4 : att.certificates.head? = some leaf)
    (h5 : parse leaf = some cert)
    (h6 : b64 key_id = some kid) :
    (∀ pk rc,
        Attestation.verify b64 parse parseBer sha256 appleRoot att challenge
          app_id key_id time dev = some (.ok (pk, rc)) → sha256 pk = kid) ∧
    (sha256 cert.spki ≠ kid →
      Attestation.verify b64 parse parseBer sha256 appleRoot att challenge
        app_id key_id time dev = some (.error .invalidPublicKey)) := by
  constructor
  · intro pk rc hok
    simp only [Attestation.verify, h1, h2, h3, h4, h5, h6,
      verify_public_key_hash] at hok
    by_cases hk : sha256 cert.spki = kid
    · simp only [hk] at hok
      repeat' split at hok
      all_goals simp_all [ite_eq_iff]
    · simp [hk] at hok
  · intro h7
    exact verify_invalid_public_key_of_hash_ne b64 parse parseBer sha256
      appleRoot att challenge key_id app_id ch time dev ad leaf cert kid
      h1 h2 h3 h4 h5 h6 h7

/-- Claim C7 witness: the theorem applied at a concrete input whose leaf
public-key hash differs from the decoded key id `[2]`, so verification
fails with `InvalidPublicKey` (and the success conjunct holds
vacuously). -/
theorem C7_witness :
    shaZ leafC.spki ≠ [2] ∧
    Attestation.verify b64C3 parse1 berC3 shaZ rootC attC3 "chal" [0] "kid"
      7 none = some (.error .invalidPublicKey) ∧
    (∀ pk rc,
      Attestation.verify b64C3 parse1 berC3 shaZ rootC attC3 "chal" [0]
        "kid" 7 none = some (.ok (pk, rc)) → shaZ pk = [2]) :=
  ⟨by decide,
    (C7_public_key_hash_binding b64C3 parse1 berC3 shaZ rootC attC3 "chal"
        "kid" [0] [1] 7 none adC3 [10] leafC [2]
        rfl rfl rfl rfl rfl rfl).2 (by decide),
    (C7_public_key_hash_binding b64C3 parse1 berC3 shaZ rootC attC3 "chal"
        "kid" [0] [1] 7 none adC3 [10] leafC [2]
        rfl rfl rfl rfl rfl rfl).1⟩

/-- Claim C8: for every attestation input reaching the counter check
(all earlier steps — challenge decode, chain validation,
authenticator-data parse, key-hash check, nonce check, app-id check —
succeed), `Attestation.verify` fails with `InvalidCounter` exactly when
the parsed counter is nonzero, and the `verify_counter` check itself
passes exactly when the counter equals zero. -/
theorem C8_attestation_counter_must_be_zero
    (b64 : String → Option Bytes) (parse : Bytes → Option X509)
    (parseBer : Bytes → Option BerTop) (sha256 : Bytes → Bytes)
    (appleRoot : X509) (att : Attestation) (challenge key_id : String)
    (app_id ch : Bytes) (time : Int) (dev : Option Bool)
    (ad : AuthenticatorData) (leaf : Bytes) (cert : X509) (kid ex : Bytes)
    (h1 : b64 challenge = some ch)
    (h2 : verify_certificates parse att.certificates appleRoot time = .ok ())
    (h3 : AuthenticatorData.new att.authData = .ok ad)
    (h4 : att.certificates.head? = some leaf)
    (h5 : parse leaf = some cert)
    (h6 : b64 key_id = some kid)
    (h7 : sha256 cert.spki = kid)
    (h8 : extract_nonce_from_cert parse parseBer leaf = some (.ok ex))
    (h9 : ex = sha256 (att.authData ++ sha256 ch))
    (h10 : sha256 app_id = ad.rpIdHash) :
    (Attestation.verify b64 parse parseBer sha256 appleRoot att challenge
        app_id key_id time dev = some (.error .invalidCounter) ↔
      ad.counter ≠ 0) ∧
    (ad.verify_counter = .ok () ↔ ad.counter = 0) := by
  have hb : ad.bytes = att.authData := adNew_bytes h3
  constructor
  · by_cases hc : ad.counter = 0
    · simp [Attestation.verify, h1, h2, h3, h4, h5, h6,
        verify_public_key_hash, nonce_hash, hb, h7, h8, h9,
        AuthenticatorData.verify_app_id, h10,
        AuthenticatorData.verify_counter, AuthenticatorData.verify_key_id,
        hc, ite_eq_iff]
      intro haag
      by_cases hcred : ad.credentialId = some kid <;> simp [hcred]
    · simp [Attestation.verify, h1, h2, h3, h4, h5, h6,
        verify_public_key_hash, nonce_hash, hb, h7, h8, h9,
        AuthenticatorData.verify_app_id, h10,
        AuthenticatorData.verify_counter, hc]
  · by_cases hc : ad.counter = 0 <;>
      simp [AuthenticatorData.verify_counter, hc]

/-- Claim C8 witness: the theorem applied at a concrete input that
passes every earlier check and carries counter 1, so verification fails
with `InvalidCounter`. -/
theorem C8_witness :
    AuthenticatorData.new attC8.authData = .ok adC8 ∧
    (Attestation.verify b64C5 parse1 berC8 shaZ rootC attC8 "chal" [0]
        "kidz" 8 none = some (.error .invalidCounter) ↔
      adC8.counter ≠ 0) :=
  ⟨rfl,
    (C8_attestation_counter_must_be_zero b64C5 parse1 berC8 shaZ rootC attC8
        "chal" "kidz" [0] [1] 8 none adC8 [10] leafC zeros32 zeros32
        rfl rfl rfl rfl rfl rfl rfl rfl rfl rfl).1⟩

/-- Claim C2: for every decoded assertion envelope whose earlier steps
succeed (client-data decode, authenticator-data parse, key parse,
signature parse, signature check, app-id check), `Assertion.verify`
fails with `InvalidCounter` exactly when the counter is less than or
equal to `previous_counter`, and returns the `(r, s, x, y)` result when
it is strictly greater. -/
theorem C2_assertion_counter_check
    (b64 : String → Option Bytes) (sha256 : Bytes → Bytes)
    (pemKey : String → Option PubKey) (derSig : Bytes → Option EcdsaSig)
    (ecdsaVerify : PubKey → Bytes → EcdsaSig → Bool) (a : Assertion)
    (client_data : String) (app_id : Bytes) (public_key : String)
    (previous_counter : Nat) (verify_signature : Option Bool)
    (cdb : Bytes) (ad : AuthenticatorData) (vk : PubKey) (sig : EcdsaSig)
    (h1 : b64 client_data = some cdb)
    (h2 : AuthenticatorData.new a.raw_authenticator_data = .ok ad)
    (h3 : pemKey public_key = some vk)
    (h4 : derSig a.signature = some sig)
    (h5 : verify_signature.getD true = true →
      ecdsaVerify vk (sha256 (ad.bytes ++ sha256 cdb)) sig = true)
    (h6 : sha256 app_id = ad.rpIdHash) :
    (Assertion.verify b64 sha256 pemKey derSig ecdsaVerify a client_data
        app_id public_key previous_counter verify_signature =
      .error .invalidCounter ↔ ad.counter ≤ previous_counter) ∧
    (previous_counter < ad.counter →
      Assertion.verify b64 sha256 pemKey derSig ecdsaVerify a client_data
        app_id public_key previous_counter verify_signature =
      .ok (sig.r, sig.s, vk.x, vk.y)) := by
  have hcond : (verify_signature.getD true &&
      !ecdsaVerify vk (sha256 (ad.bytes ++ sha256 cdb)) sig) = false := by
    cases hv : verify_signature.getD true
    · simp
    · simp [h5 hv]
  constructor
  · by_cases hc : ad.counter ≤ previous_counter <;>
      simp [Assertion.verify, h1, h2, h3, h4, hcond,
        AuthenticatorData.verify_app_id, h6, hc]
  · intro hlt
    simp [Assertion.verify, h1, h2, h3, h4, hcond,
      AuthenticatorData.verify_app_id, h6, Nat.not_le.mpr hlt]

/-- Claim C2 witness: the theorem applied at a concrete assertion whose
counter is 5 against a previous counter of 3, so the counter check
passes and the run returns the `(r, s, x, y)` result. -/
theorem C2_witness :
    AuthenticatorData.new asrtC2.raw_authenticator_data = .ok adC2 ∧
    (Assertion.verify b64A shaZ pemK derS ecdsaT asrtC2 "cd" [0] "pk" 3
        none = .error .invalidCounter ↔ adC2.counter ≤ 3) ∧
    (3 < adC2.counter →
      Assertion.verify b64A shaZ pemK derS ecdsaT asrtC2 "cd" [0] "pk" 3
        none = .ok (sigC.r, sigC.s, vkC.x, vkC.y)) :=
  ⟨rfl,
    (C2_assertion_counter_check b64A shaZ pemK derS ecdsaT asrtC2 "cd" [0]
        "pk" 3 none [1] adC2 vkC sigC rfl rfl rfl rfl (fun _ => rfl) rfl).1,
    (C2_assertion_counter_check b64A shaZ pemK derS ecdsaT asrtC2 "cd" [0]
        "pk" 3 none [1] adC2 vkC sigC rfl rfl rfl rfl (fun _ => rfl) rfl).2⟩

/-- Claim C9: assuming the `p256` parsers only produce 32-byte
components (a guarantee of the library's fixed-width field types),
every `Ok` result of `Assertion.verify` consists of four byte arrays —
signature `r`, signature `s`, public-key `x`, public-key `y` — each of
length exactly 32. -/
theorem C9_assertion_ok_components_are_32_bytes
    (b64 : String → Option Bytes) (sha256 : Bytes → Bytes)
    (pemKey : String → Option PubKey) (derSig : Bytes → Option EcdsaSig)
    (ecdsaVerify : PubKey → Bytes → EcdsaSig → Bool) (a : Assertion)
    (client_data : String) (app_id : Bytes) (public_key : String)
    (previous_counter : Nat) (verify_signature : Option Bool)
    (hkey : ∀ s k, pemKey s = some k → k.x.length = 32 ∧ k.y.length = 32)
    (hsig : ∀ b sg, derSig b = some sg →
      sg.r.length = 32 ∧ sg.s.length = 32) :
    ∀ r s x y,
      Assertion.verify b64 sha256 pemKey derSig ecdsaVerify a client_data
          app_id public_key previous_counter verify_signature =
        .ok (r, s, x, y) →
      r.length = 32 ∧ s.length = 32 ∧ x.length = 32 ∧ y.length = 32 := by
  intro r s x y hok
  unfold Assertion.verify at hok
  cases hcd : b64 client_data with
  | none => simp [hcd] at hok
  | some cdb =>
  simp only [hcd] at hok
  cases had : AuthenticatorData.new a.raw_authenticator_data with
  | error e => simp [had] at hok
  | ok ad =>
  simp only [had] at hok
  cases hpk : pemKey public_key with
  | none => simp [hpk] at hok
  | some vk =>
  simp only [hpk] at hok
  cases hds : derSig a.signature with
  | none => simp [hds] at hok
  | some sg =>
  simp only [hds] at hok
  by_cases hs : (verify_signature.getD true &&
      !ecdsaVerify vk (sha256 (ad.bytes ++ sha256 cdb)) sg) = true
  · rw [if_pos hs] at hok
    simp at hok
  · rw [if_neg hs] at hok
    cases hap : ad.verify_app_id sha256 app_id with
    | error e => simp [hap] at hok
    | ok u =>
    cases u
    simp only [hap] at hok
    by_cases hc : ad.counter ≤ previous_counter
    · rw [if_pos hc] at hok
      simp at hok
    · rw [if_neg hc] at hok
      simp only [Except.ok.injEq, Prod.mk.injEq] at hok
      obtain ⟨e1, e2, e3, e4⟩ := hok
      subst e1
      subst e2
      subst e3
      subst e4
      exact ⟨(hsig _ _ hds).1, (hsig _ _ hds).2,
        (hkey _ _ hpk).1, (hkey _ _ hpk).2⟩

/-- Claim C9 witness: the theorem applied at a concrete assertion run
that succeeds (counter 5 against previous counter 0) with parsers
returning 32-byte components. -/
theorem C9_witness :
    Assertion.verify b64A shaZ pemK derS ecdsaT asrtC2 "cd" [0] "pk" 0
      none = .ok (zeros32, zeros32, zeros32, zeros32) ∧
    (zeros32.length = 32 ∧ zeros32.length = 32 ∧ zeros32.length = 32 ∧
      zeros32.length = 32) :=
  ⟨rfl,
    C9_assertion_ok_components_are_32_bytes b64A shaZ pemK derS ecdsaT
      asrtC2 "cd" [0] "pk" 0 none
      (by
        intro s k h
        unfold pemK at h
        split at h
        · cases h
          exact ⟨rfl, rfl⟩
        · cases h)
      (by
        intro b sg h
        unfold derS at h
        split at h
        · cases h
          exact ⟨rfl, rfl⟩
        · cases h)
      zeros32 zeros32 zeros32 zeros32 rfl⟩

/-- `getD` at index 0 agrees with `headD`. -/
theorem getD_zero_headD (l : List X509) (d : X509) : l.getD 0 d = l.headD d := by
  cases l <;> rfl

/-- `AllValid` in indexed form. -/
theorem AllValid_iff (t : Int) (l : List X509) :
    AllValid t l ↔ ∀ i (hi : i < l.length), is_valid_at l[i] t = true := by
  induction l with
  | nil => simp [AllValid]
  | cons c rest ih =>
    simp only [AllValid, ih]
    constructor
    · rintro ⟨hc, hrest⟩ i hi
      cases i with
      | zero => simpa using hc
      | succ j => simpa using hrest j (by simpa using hi)
    · intro h
      refine ⟨by simpa using h 0 (by simp), fun j hj => ?_⟩
      simpa using h (j + 1) (by simpa using hj)

/-- `AllLinked` in indexed form: member `i` is checked against
`l.getD (i+1) root`, the next member when present and the root
otherwise. -/
theorem AllLinked_iff (root : X509) (l : List X509) :
    AllLinked root l ↔
      ∀ i (hi : i < l.length),
        l[i].issuerDN = (l.getD (i + 1) root).subjectDN := by
  induction l with
  | nil => simp [AllLinked]
  | cons c rest ih =>
    simp only [AllLinked, ih]
    constructor
    · rintro ⟨hc, hrest⟩ i hi
      cases i with
      | zero =>
        simpa [List.getD_cons_succ, List.headD_eq_head?,
          List.head?_eq_getElem?] using hc
      | succ j => simpa [List.getD_cons_succ] using hrest j (by simpa using hi)
    · intro h
      constructor
      · have h0 := h 0 (by simp)
        simpa [List.getD_cons_succ, List.headD_eq_head?,
          List.head?_eq_getElem?] using h0
      · intro j hj
        have hs := h (j + 1) (by simpa using hj)
        simpa [List.getD_cons_succ] using hs

/-- The chain walk succeeds exactly when every member passes both the
validity check and the issuer-linkage check. -/
theorem walkChain_ok_iff (root : X509) (t : Int) (l : List X509) :
    walkChain root t l = .ok () ↔ AllValid t l ∧ AllLinked root l := by
  induction l with
  | nil => simp [walkChain, AllValid, AllLinked]
  | cons c rest ih =>
    by_cases hv : is_valid_at c t = true
    · by_cases hd : c.issuerDN = (rest.headD root).subjectDN
      · simp [walkChain, AllValid, AllLinked, hv, hd, ih,
          List.headD_eq_head?]
      · have hd2 : ¬ c.issuerDN = (rest.head?.getD root).subjectDN := by
          simpa [List.headD_eq_head?] using hd
        simp [walkChain, AllValid, AllLinked, hv, List.headD_eq_head?, hd2]
    · rw [Bool.not_eq_true] at hv
      simp [walkChain, AllValid, AllLinked, hv]

/-- When every linkage check passes but some member fails the validity
check, the walk reports the expiry error. -/
theorem walkChain_expired (root : X509) (t : Int) (l : List X509)
    (hl : AllLinked root l) (hv : ¬ AllValid t l) :
    walkChain root t l =
      .error (.message "certificate expired / not yet valid") := by
  induction l with
  | nil => exact absurd trivial hv
  | cons c rest ih =>
    obtain ⟨hd, hrest⟩ := hl
    by_cases hvc : is_valid_at c t = true
    · have hvr : ¬ AllValid t rest := fun hh => hv ⟨hvc, hh⟩
      simp [walkChain, hvc, hd, ih hrest hvr, List.headD_eq_head?]
    · rw [Bool.not_eq_true] at hvc
      simp [walkChain, hvc]

/-- When every validity check passes but some member fails the linkage
check, the walk reports the issuer-mismatch error. -/
theorem walkChain_dn_mismatch (root : X509) (t : Int) (l : List X509)
    (hv : AllValid t l) (hl : ¬ AllLinked root l) :
    walkChain root t l = .error (.message "issuer DN mismatch") := by
  induction l with
  | nil => exact absurd trivial hl
  | cons c rest ih =>
    obtain ⟨hvc, hvrest⟩ := hv
    by_cases hd : c.issuerDN = (rest.headD root).subjectDN
    · have hlr : ¬ AllLinked root rest := fun hh => hl ⟨hd, hh⟩
      simp [walkChain, hvc, hd, ih hvrest hlr, List.headD_eq_head?]
    · have hd2 : ¬ c.issuerDN = (rest.head?.getD root).subjectDN := by
        simpa [List.headD_eq_head?] using hd
      simp [walkChain, hvc, hd2]

/-- With a successfully parsed non-empty chain and a representable
timestamp, `verify_certificates` reduces to the chain walk. -/
theorem verify_certificates_eq_walk (parse : Bytes → Option X509)
    (cert_chain : List Bytes) (root : X509) (time : Int)
    (parsed : List X509)
    (hp : parseChain parse cert_chain = .ok parsed)
    (ht : from_timestamp_ok time = true)
    (hne : cert_chain ≠ []) :
    verify_certificates parse cert_chain root time =
      walkChain root time parsed := by
  have hE : cert_chain.isEmpty = false := by
    cases cert_chain
    · exact absurd rfl hne
    · rfl
  simp [verify_certificates, hE, hp, ht]

/-- Claim C4: `verify_certificates` rejects an empty chain with the
empty-chain error; on a parsed non-empty chain with a representable
timestamp it succeeds exactly when every member `i` is inside its
validity window at `at_time` and its issuer DN equals the subject DN of
`chain[i+1]` (the root for the last member); it reports the expiry
error whenever some member fails the validity test while all linkage
checks pass, and the issuer-mismatch error whenever some member fails
the linkage test while all validity checks pass; and the validity test
is inclusive, so one second before `not_before` or one second after
`not_after` is already outside the window. -/
theorem C4_verify_certificates_characterization
    (parse : Bytes → Option X509) (cert_chain : List Bytes) (root : X509)
    (time : Int) (parsed : List X509)
    (hp : parseChain parse cert_chain = .ok parsed)
    (ht : from_timestamp_ok time = true)
    (hne : cert_chain ≠ []) :
    (verify_certificates parse [] root time =
      .error (.message "certificate list is empty")) ∧
    (verify_certificates parse cert_chain root time = .ok () ↔
      ∀ i (hi : i < parsed.length),
        is_valid_at parsed[i] time = true ∧
        parsed[i].issuerDN = (parsed.getD (i + 1) root).subjectDN) ∧
    (∀ i (hi : i < parsed.length),
      is_valid_at parsed[i] time = false →
      (∀ j (hj : j < parsed.length),
        parsed[j].issuerDN = (parsed.getD (j + 1) root).subjectDN) →
      verify_certificates parse cert_chain root time =
        .error (.message "certificate expired / not yet valid")) ∧
    (∀ i (hi : i < parsed.length),
      parsed[i].issuerDN ≠ (parsed.getD (i + 1) root).subjectDN →
      (∀ j (hj : j < parsed.length), is_valid_at parsed[j] time = true) →
      verify_certificates parse cert_chain root time =
        .error (.message "issuer DN mismatch")) ∧
    (∀ c : X509, is_valid_at c (c.notBefore - 1) = false ∧
      is_valid_at c (c.notAfter + 1) = false) := by
  have hred := verify_certificates_eq_walk parse cert_chain root time parsed
    hp ht hne
  refine ⟨rfl, ?_, ?_, ?_, ?_⟩
  · rw [hred, walkChain_ok_iff, AllValid_iff, AllLinked_iff]
    constructor
    · rintro ⟨hA, hB⟩ i hi
      exact ⟨hA i hi, hB i hi⟩
    · intro h
      exact ⟨fun i hi => (h i hi).1, fun i hi => (h i hi).2⟩
  · intro i hi hbad hlink
    rw [hred]
    refine walkChain_expired root time parsed ((AllLinked_iff root parsed).mpr hlink) ?_
    intro hAV
    have := (AllValid_iff time parsed).mp hAV i hi
    rw [hbad] at this
    exact Bool.false_ne_true this
  · intro i hi hbad hvalid
    rw [hred]
    refine walkChain_dn_mismatch root time parsed ((AllValid_iff time parsed).mpr hvalid) ?_
    intro hAL
    exact hbad ((AllLinked_iff root parsed).mp hAL i hi)
  · intro c
    constructor
    · simp only [is_valid_at, Bool.and_eq_false_iff,
        decide_eq_false_iff_not]
      omega
    · simp only [is_valid_at, Bool.and_eq_false_iff,
        decide_eq_false_iff_not]
      omega

/-- Claim C4 witness: the characterization applied to the concrete
one-certificate chain `[[10]]` (parsing to `[leafC]`) against `rootC`
at time 5. -/
theorem C4_witness :
    parseChain parse1 [[10]] = .ok [leafC] ∧
    from_timestamp_ok 5 = true ∧
    ([[10]] : List Bytes) ≠ [] ∧
    ((verify_certificates parse1 [] rootC 5 =
      .error (.message "certificate list is empty")) ∧
    (verify_certificates parse1 [[10]] rootC 5 = .ok () ↔
      ∀ i (hi : i < [leafC].length),
        is_valid_at [leafC][i] 5 = true ∧
        [leafC][i].issuerDN = ([leafC].getD (i + 1) rootC).subjectDN) ∧
    (∀ i (hi : i < [leafC].length),
      is_valid_at [leafC][i] 5 = false →
      (∀ j (hj : j < [leafC].length),
        [leafC][j].issuerDN = ([leafC].getD (j + 1) rootC).subjectDN) →
      verify_certificates parse1 [[10]] rootC 5 =
        .error (.message "certificate expired / not yet valid")) ∧
    (∀ i (hi : i < [leafC].length),
      [leafC][i].issuerDN ≠ ([leafC].getD (i + 1) rootC).subjectDN →
      (∀ j (hj : j < [leafC].length), is_valid_at [leafC][j] 5 = true) →
      verify_certificates parse1 [[10]] rootC 5 =
        .error (.message "issuer DN mismatch")) ∧
    (∀ c : X509, is_valid_at c (c.notBefore - 1) = false ∧
      is_valid_at c (c.notAfter + 1) = false)) :=
  ⟨rfl, by decide, by decide,
    C4_verify_certificates_characterization parse1 [[10]] rootC 5 [leafC]
      rfl (by decide) (by decide)⟩

end MobiScale

